import Mathlib

/-!
Verification of the OpenStack provider layer of the azimuth repository
(`src/jasmin_cloud/provider/openstack.py` and the OpenStack authenticator in
`src/api/azimuth_auth/authenticator/openstack.py`).

The Python code is shallowly embedded: every network interaction is modelled
by an explicit parameter carrying the backend's answer, Python exceptions
become explicit `Except` results, and Python dictionaries become association
lists.  The referenced `dto` / `errors` modules are not part of the source
tree; their constructors are embedded exactly as they are used by the provider
code (constructor argument order and the enum member names appearing in the
provider source).
-/

set_option autoImplicit false

namespace Azimuth

/-- The normalized error taxonomy of the `errors` module, with the
human-readable message each constructor carries, exactly as raised by the
provider code. -/
inductive ProviderError where
  | authenticationError (msg : String)
  | permissionDeniedError (msg : String)
  | objectNotFoundError (msg : String)
  | quotaExceededError (msg : String)
  | badInputError (msg : String)
  | invalidOperationError (msg : String)
  | improperlyConfiguredError (msg : String)
  | communicationError (msg : String)
  | error (msg : String)
  deriving DecidableEq, Repr

/-- A failure escaping a provider operation: either a member of the normalized
taxonomy, or a raw Python exception (named by its class) that no handler
translates. -/
inductive Failure where
  | provider (e : ProviderError)
  | hard (name : String)
  deriving DecidableEq, Repr

/-- `charsStartWith s pat` : the character list `s` starts with `pat`. -/
def charsStartWith : List Char → List Char → Bool
  | _, [] => true
  | [], _ :: _ => false
  | c :: cs, p :: ps => c == p && charsStartWith cs ps

/-- `charsContain pat s` : `pat` occurs as a contiguous run inside `s`. -/
def charsContain (pat : List Char) : List Char → Bool
  | [] => pat.isEmpty
  | c :: cs => charsStartWith (c :: cs) pat || charsContain pat cs

/-- Python's `pat in s` substring test. -/
def pyIn (pat s : String) : Bool :=
  charsContain pat.data s.data

/-- Python's `str.lower()` (the messages being sniffed are ASCII). -/
def pyLower (s : String) : String :=
  String.mk (s.data.map Char.toLower)

/-- The quota sniffing test of `convert_sdk_exceptions`:
`'quota exceeded' in message.lower()`. -/
def containsQuotaExceeded (message : String) : Bool :=
  pyIn "quota exceeded" (pyLower message)

/-- The `_REPLACEMENTS` table of backend resource vocabulary rewrites. -/
def _REPLACEMENTS : List (String × String) :=
  [("instance", "machine"),
   ("Instance", "Machine"),
   ("flavorRef", "size"),
   ("flavor", "size"),
   ("Flavor", "Size")]

/-- `_replace_resource_names`: fold the replacement table over the message
(Python `str.replace` replaces every occurrence, as does `String.replace`). -/
def _replace_resource_names (message : String) : String :=
  _REPLACEMENTS.foldl (fun a x => a.replace x.1 x.2) message

/-- The backend/SDK exceptions caught by `convert_sdk_exceptions`:
`exceptions.ResourceNotFound`, SDK `HttpException` (which has `status_code`
and `details`), raw keystone session `HttpError` (which has `http_status` and
`message`), and the catch-all `SDKException`/`ClientException` case. -/
inductive SdkException where
  | resourceNotFound (details : String)
  | httpException (status_code : Nat) (details : String)
  | keystoneHttpError (http_status : Nat) (message : String)
  | sdkError
  deriving DecidableEq, Repr

/-- The message raised for a recognised quota-exceeded condition. -/
def quotaExceededMessage : String :=
  "Requested operation would exceed at least one quota. Please check your tenancy quotas."

/-- The status-code dispatch common to both HTTP exception shapes inside
`convert_sdk_exceptions`. -/
def httpStatusDispatch (status_code : Nat) (message : String) : ProviderError :=
  if status_code == 400 then
    .badInputError message
  else if status_code == 401 then
    .authenticationError "Your session has expired"
  else if status_code == 403 then
    -- Some quota exceeded errors get reported as permission denied,
    -- so report them as quota exceeded instead
    if containsQuotaExceeded message then
      .quotaExceededError quotaExceededMessage
    else
      .permissionDeniedError "Permission denied"
  else if status_code == 404 then
    .objectNotFoundError message
  else if status_code == 409 then
    -- 409 (Conflict) has different sub-errors depending on the error text
    if containsQuotaExceeded message then
      .quotaExceededError quotaExceededMessage
    else
      .invalidOperationError message
  else
    .communicationError "Error communicating with OpenStack API"

/-- `convert_sdk_exceptions`: translation of a caught SDK exception into the
normalized taxonomy.  The SDK `HttpException` branch rewrites resource names
in `details`; the raw keystone branch uses `message` as-is. -/
def convert_sdk_exceptions : SdkException → ProviderError
  | .resourceNotFound details =>
      .objectNotFoundError (_replace_resource_names (details.replace "404 Not Found: " ""))
  | .httpException status_code details =>
      httpStatusDispatch status_code (_replace_resource_names details)
  | .keystoneHttpError http_status message =>
      httpStatusDispatch http_status message
  | .sdkError =>
      .error "Unknown error in OpenStack SDK"

/-- The outcome of running a decorated operation's body: a value, a raised SDK
exception (to be translated), a raised taxonomy error (passes through the
decorator untouched), or a raised Python exception of another class (also
untouched). -/
inductive Outcome (α : Type) where
  | ok (a : α)
  | sdkError (e : SdkException)
  | appError (e : ProviderError)
  | hardError (name : String)
  deriving DecidableEq, Repr

/-- Applying the `convert_sdk_exceptions` decorator to a body's outcome. -/
def applyConvert {α : Type} : Outcome α → Except Failure α
  | .ok a => .ok a
  | .sdkError e => .error (.provider (convert_sdk_exceptions e))
  | .appError e => .error (.provider e)
  | .hardError n => .error (.hard n)

/-! ### `Provider.authenticate` -/

/-- The observable outcome of the `requests.post` call to the token endpoint:
either a transport failure or a response with a status code and headers. -/
inductive PostResult where
  | connectionFailure
  | response (status_code : Nat) (headers : List (String × String))
  deriving DecidableEq, Repr

/-- The state held by `UnscopedSession` that `authenticate` constructs. -/
structure UnscopedSessionData where
  auth_url : String
  username : String
  token : String
  deriving DecidableEq, Repr

/-- `Provider.authenticate`, given the outcome of the token request.
`requests.post` is executed before the `try:` block, so a transport failure
propagates as the raw `requests.exceptions.ConnectionError` (the
`except ConnectionError` clause guards only `raise_for_status`, which raises
`HTTPError` alone).  `raise_for_status` raises exactly for 400 ≤ status < 600;
the token is then read from the `X-Subject-Token` response header, a missing
header (`KeyError`) becoming a `CommunicationError`. -/
def authenticate (auth_url username : String) (r : PostResult) :
    Except Failure UnscopedSessionData :=
  match r with
  | .connectionFailure => .error (.hard "requests.exceptions.ConnectionError")
  | .response status headers =>
    if 400 ≤ status ∧ status < 600 then
      if status == 401 then
        .error (.provider (.authenticationError "Invalid username or password"))
      else
        .error (.provider (.communicationError "Unexpected response from OpenStack"))
    else
      match headers.find? (fun h => h.1 == "X-Subject-Token") with
      | some h => .ok ⟨auth_url, username, h.2⟩
      | none => .error (.provider (.communicationError "Unable to extract token from response"))

/-! ### `UnscopedSession.scoped_session` -/

/-- A tenancy (project) as surfaced by `tenancies()`. -/
structure Tenancy where
  id : String
  name : String
  deriving DecidableEq, Repr

/-- The id-or-object polymorphic argument of `scoped_session`. -/
inductive TenancyArg where
  | tenancy (t : Tenancy)
  | rawId (i : String)
  deriving DecidableEq, Repr

/-- The outcome of the `ScopedSession(...)` construction attempt: success or a
raised SDK `HttpException` with a status code. -/
inductive ScopeOutcome where
  | success
  | httpExc (status_code : Nat) (details : String)
  deriving DecidableEq, Repr

/-- The state held by a `ScopedSession`. -/
structure ScopedSessionData where
  username : String
  tenancy_id : String
  tenancy_name : String
  deriving DecidableEq, Repr

/-- The `try: return ScopedSession(...) except HttpException` tail of
`scoped_session`: an auth failure (401/403) during scoping is remapped to
`ObjectNotFoundError`; any other `HttpException` is re-raised unchanged
(`raise e`). -/
def scopeAttempt (username : String) (t : Tenancy) (attempt : ScopeOutcome) :
    Outcome ScopedSessionData :=
  match attempt with
  | .success => .ok ⟨username, t.id, t.name⟩
  | .httpExc s d =>
    if s == 401 || s == 403 then
      .appError (.objectNotFoundError ("Could not find tenancy with ID " ++ t.id))
    else
      .sdkError (.httpException s d)

/-- The body of `scoped_session` (before the decorator): a raw id is resolved
against the result of `tenancies()` (passed in as `tenancies`), a missing
match raising `ObjectNotFoundError`; then the scoping attempt runs. -/
def scoped_session_body (username : String) (arg : TenancyArg) (tenancies : List Tenancy)
    (attempt : ScopeOutcome) : Outcome ScopedSessionData :=
  match arg with
  | .tenancy t => scopeAttempt username t attempt
  | .rawId i =>
    match tenancies.find? (fun t => t.id == i) with
    | none => .appError (.objectNotFoundError ("Could not find tenancy with ID " ++ i))
    | some t => scopeAttempt username t attempt

/-- `scoped_session` as called by clients: the body wrapped in the
`convert_sdk_exceptions` decorator. -/
def scoped_session (username : String) (arg : TenancyArg) (tenancies : List Tenancy)
    (attempt : ScopeOutcome) : Except Failure ScopedSessionData :=
  applyConvert (scoped_session_body username arg tenancies attempt)

/-! ### Python scalar helpers -/

/-- Python truthiness fallback `x or d` for an optional string (`None` and the
empty string are falsy). -/
def pyOrStr : Option String → String → String
  | none, d => d
  | some "", d => d
  | some s, _ => s

/-- `s[:n]` on a Python string. -/
def pyTake (n : Nat) (s : String) : String :=
  String.mk (s.data.take n)

/-- Drop leading ASCII whitespace. -/
def dropLeadingWs : List Char → List Char
  | [] => []
  | c :: cs =>
    if c == ' ' || c == '\t' || c == '\n' || c == '\r' then dropLeadingWs cs else c :: cs

/-- Python `str.strip()` for ASCII whitespace. -/
def pyStrip (cs : List Char) : List Char :=
  ((dropLeadingWs cs).reverse |> dropLeadingWs).reverse

/-- Recogniser for the digit run accepted by Python's `int(str)`: one or more
ASCII digits, single underscores allowed strictly between digits.  The flag
records whether the previous character was a digit. -/
def pyDigitRun : List Char → Bool → Bool
  | [], afterDigit => afterDigit
  | c :: cs, afterDigit =>
    if c.isDigit then pyDigitRun cs true
    else if c == '_' then afterDigit && pyDigitRun cs false
    else false

/-- Numeric value of a digit run (underscores skipped). -/
def pyDigitsVal (cs : List Char) : Nat :=
  (cs.filter (fun c => c != '_')).foldl (fun a c => a * 10 + (c.toNat - 48)) 0

/-- Python's `int(str)`: optional surrounding whitespace, optional sign, a
digit run.  `none` models the `ValueError` raised on anything else. -/
def parsePythonInt (s : String) : Option Int :=
  match pyStrip s.data with
  | '+' :: rest => if pyDigitRun rest false then some (pyDigitsVal rest : Int) else none
  | '-' :: rest => if pyDigitRun rest false then some (-(pyDigitsVal rest : Int)) else none
  | rest => if pyDigitRun rest false then some (pyDigitsVal rest : Int) else none

/-- Python `str.capitalize()`: first character upper-cased, the rest
lower-cased (ASCII). -/
def pyCapitalize (s : String) : String :=
  match s.data with
  | [] => ""
  | c :: rest => String.mk (c.toUpper :: rest.map Char.toLower)

/-! ### Images -/

/-- The fields of the custom image resource consumed by `_from_sdk_image`
(`jasmin_type` / `jasmin_nat_allowed` are custom body properties and may be
absent). -/
structure SdkImage where
  id : String
  jasmin_type : Option String
  name : String
  visibility : String
  jasmin_nat_allowed : Option String
  size : Nat
  deriving DecidableEq, Repr

/-- `dto.Image` as constructed by the provider: id, workload type, name,
public flag, NAT-allowed flag, size in MB.  The byte→MB float division is
modelled exactly over `Rat`. -/
structure Image where
  id : String
  vm_type : String
  name : String
  is_public : Bool
  nat_allowed : Bool
  size_mb : Rat
  deriving DecidableEq

/-- `_from_sdk_image`: `bool(int(sdk_image.jasmin_nat_allowed or '1'))` — the
`int` parse failure (`ValueError`) is not caught anywhere and would surface as
a hard error. -/
def _from_sdk_image (img : SdkImage) : Except Failure Image :=
  match parsePythonInt (pyOrStr img.jasmin_nat_allowed "1") with
  | none => .error (.hard "ValueError")
  | some n =>
    .ok { id := img.id
          vm_type := pyOrStr img.jasmin_type "UNKNOWN"
          name := img.name
          is_public := img.visibility == "public"
          nat_allowed := n != 0
          size_mb := (img.size : Rat) / 1024 / 1024 }

/-! ### Machines -/

/-- One entry of a server's `addresses` map: address string, IP version and
the `OS-EXT-IPS:type` discriminator. -/
structure SdkAddress where
  addr : String
  version : Nat
  ext_type : String
  deriving DecidableEq, Repr

/-- The fields of the (detail-level) server resource consumed by
`_from_sdk_server`.  `metadata` is `none` when the instance metadata object
itself is `None` (subscripting then raises `TypeError`); `fault_message`
models `(sdk_server.fault or {}).get('message', None)`. -/
structure SdkServer where
  id : String
  name : String
  metadata : Option (List (String × String))
  image_id : String
  flavor_id : String
  status : String
  fault_message : Option String
  task_state : Option String
  power_state : Nat
  addresses : List (String × List SdkAddress)
  attached_volumes : List String
  user_id : String
  created_at : String
  deriving DecidableEq, Repr

/-- `dto.Machine.Status` as constructed by the provider: the raw backend
status string and the (vocabulary-rewritten) fault message.  The lifecycle
phase member (`getattr(Status.Type, status, OTHER)`) lives in the `dto`
module, which is not part of the source tree, and no claim concerns it. -/
structure MachineStatus where
  raw : String
  fault : Option String
  deriving DecidableEq, Repr

/-- `dto.Machine` with its constructor-argument fields in source order. -/
structure Machine where
  id : String
  name : String
  image_id : String
  size_id : String
  status : MachineStatus
  power_state : String
  task : Option String
  fixed_ip : Option String
  floating_ip : Option String
  nat_allowed : Bool
  attached_volumes : List String
  user_id : String
  created_at : String
  deriving DecidableEq, Repr

/-- The `_POWER_STATES` table. -/
def _POWER_STATES : List (Nat × String) :=
  [(0, "Unknown"), (1, "Running"), (3, "Paused"), (4, "Shut down"),
   (6, "Crashed"), (7, "Suspended")]

/-- `self._POWER_STATES[code]`: `none` models the `KeyError` a missing key
raises. -/
def powerStateLookup (code : Nat) : Option String :=
  (_POWER_STATES.find? (fun p => p.1 == code)).map (·.2)

/-- `sdk_server.metadata['jasmin_nat_allowed']` with the `except (TypeError,
KeyError)` handler of `_from_sdk_server`: both a `None` metadata object
(`TypeError`) and a missing key (`KeyError`) are caught by the same handler,
so both collapse to `none`. -/
def mdGet (metadata : Option (List (String × String))) (key : String) : Option String :=
  match metadata with
  | none => none
  | some m => (m.find? (fun p => p.1 == key)).map (·.2)

/-- The NAT-allowed resolution of `_from_sdk_server`: metadata value if
present (`bool(int(value))`, whose `ValueError` on a malformed value is NOT
caught), else the source image's flag via `find_image`, else `True` when
`find_image` raises `ObjectNotFoundError` (any other `find_image` error
propagates). -/
def resolveNatAllowed (metadata : Option (List (String × String)))
    (findImage : String → Except ProviderError Image) (imageId : String) :
    Except Failure Bool :=
  match mdGet metadata "jasmin_nat_allowed" with
  | some v =>
    match parsePythonInt v with
    | some n => .ok (n != 0)
    | none => .error (.hard "ValueError")
  | none =>
    match findImage imageId with
    | .error (.objectNotFoundError _) => .ok true
    | .error e => .error (.provider e)
    | .ok img => .ok img.nat_allowed

/-- `_replace_resource_names(fault) if fault else None` (`None` and the empty
string are falsy). -/
def faultDisplay : Option String → Option String
  | none => none
  | some "" => none
  | some s => some (_replace_resource_names s)

/-- `task.capitalize() if task else None`. -/
def pyTaskDisplay : Option String → Option String
  | none => none
  | some "" => none
  | some s => some (pyCapitalize s)

/-- `ip_of_type`: the first IPv4 address of the given `OS-EXT-IPS:type` among
the addresses attached to the tenant network
(`sdk_server.addresses.get(network.name, [])`). -/
def ipOfType (netName : String) (addresses : List (String × List SdkAddress))
    (ipType : String) : Option String :=
  ((((addresses.find? (fun p => p.1 == netName)).map (·.2)).getD []).find?
      (fun a => a.version == 4 && a.ext_type == ipType)).map (·.addr)

/-- `_from_sdk_server`: the NAT-allowed resolution runs first (its
`ValueError` escapes before anything else), then the `Machine` construction,
whose power-state table lookup raises `KeyError` on an unmapped code. -/
def fromSdkServer (findImage : String → Except ProviderError Image)
    (tenantNetworkName : String) (srv : SdkServer) : Except Failure Machine :=
  match resolveNatAllowed srv.metadata findImage srv.image_id with
  | .error e => .error e
  | .ok nat_allowed =>
    match powerStateLookup srv.power_state with
    | none => .error (.hard "KeyError")
    | some power =>
      .ok { id := srv.id
            name := srv.name
            image_id := srv.image_id
            size_id := srv.flavor_id
            status := ⟨srv.status, faultDisplay srv.fault_message⟩
            power_state := power
            task := pyTaskDisplay srv.task_state
            fixed_ip := ipOfType tenantNetworkName srv.addresses "fixed"
            floating_ip := ipOfType tenantNetworkName srv.addresses "floating"
            nat_allowed := nat_allowed
            attached_volumes := srv.attached_volumes
            user_id := srv.user_id
            created_at := srv.created_at }

/-! ### Volumes -/

/-- `dto.Volume.Status`, the closed phase set referenced by the provider. -/
inductive VolumeStatus where
  | CREATING
  | AVAILABLE
  | ATTACHING
  | DETACHING
  | IN_USE
  | DELETING
  | ERROR
  | OTHER
  deriving DecidableEq, Repr

/-- The `_VOLUME_STATUSES` table. -/
def _VOLUME_STATUSES : List (String × VolumeStatus) :=
  [("creating", .CREATING),
   ("available", .AVAILABLE),
   ("attaching", .ATTACHING),
   ("detaching", .DETACHING),
   ("in-use", .IN_USE),
   ("deleting", .DELETING),
   ("error", .ERROR),
   ("error_deleting", .ERROR),
   ("error_backing-up", .ERROR),
   ("error_restoring", .ERROR),
   ("error_extending", .ERROR)]

/-- `self._VOLUME_STATUSES.get(sdk_volume.status.lower(), Status.OTHER)`. -/
def volumePhaseOf (status : String) : VolumeStatus :=
  ((_VOLUME_STATUSES.find? (fun p => p.1 == pyLower status)).map (·.2)).getD .OTHER

/-- One element of a backend volume's `attachments` list. -/
structure SdkVolumeAttachment where
  server_id : String
  device : String
  deriving DecidableEq, Repr

/-- The fields of the backend volume consumed by `_from_sdk_volume`. -/
structure SdkVolume where
  id : String
  name : Option String
  status : String
  size : Nat
  attachments : List SdkVolumeAttachment
  deriving DecidableEq, Repr

/-- `dto.Volume` with its constructor-argument fields in source order. -/
structure Volume where
  id : String
  name : String
  status : VolumeStatus
  size : Nat
  machine_id : Option String
  device : Option String
  deriving DecidableEq, Repr

/-- `_from_sdk_volume`: phase from the status table, display name falling
back to `id[:13]`, attachment fields from the first attachment only. -/
def _from_sdk_volume (v : SdkVolume) : Volume :=
  let attachment := v.attachments.head?
  { id := v.id
    name := pyOrStr v.name (pyTake 13 v.id)
    status := volumePhaseOf v.status
    size := v.size
    machine_id := attachment.map (·.server_id)
    device := attachment.map (·.device) }

/-- The backend (write) calls a volume operation can issue. -/
inductive BackendAction where
  | createVolumeAttachment (machineId : String) (volumeId : String)
  deriving DecidableEq, Repr

/-- `attach_volume`, after id-or-object normalization (`volume` is the
resolved DTO, `machineId` the machine id, `refetched` the `find_volume`
result the success path returns).  The returned list records the backend
write calls issued. -/
def attach_volume (volume : Volume) (machineId : String) (refetched : Volume) :
    Except ProviderError Volume × List BackendAction :=
  if volume.machine_id == some machineId then
    (.ok volume, [])
  else if volume.status != VolumeStatus.AVAILABLE then
    (.error (.invalidOperationError "Volume must be AVAILABLE before attaching."), [])
  else
    (.ok refetched, [.createVolumeAttachment machineId volume.id])

/-! ### Floating IPs -/

/-- A backend floating IP record: address plus the bound port, if any. -/
structure SdkFloatingIp where
  floating_ip_address : String
  port_id : Option String
  deriving DecidableEq, Repr

/-- A backend port. -/
structure Port where
  id : String
  device_id : String
  network_id : String
  deriving DecidableEq, Repr

/-- `dto.ExternalIp`. -/
structure ExternalIp where
  external_ip : String
  machine_id : Option String
  deriving DecidableEq, Repr

/-- `next(self.connection.network.ips(port_id = pid), None)`. -/
def ipsByPort (fips : List SdkFloatingIp) (portId : String) : Option SdkFloatingIp :=
  fips.find? (fun f => f.port_id == some portId)

/-- `next(self.connection.network.ips(floating_ip_address = addr), None)`. -/
def ipsByAddress (fips : List SdkFloatingIp) (addr : String) : Option SdkFloatingIp :=
  fips.find? (fun f => f.floating_ip_address == addr)

/-- `update_ip(fip, port_id = newPort)` as a state change on the floating-IP
table (floating IP addresses are unique in a deployment). -/
def update_ip (fips : List SdkFloatingIp) (addr : String) (newPort : Option String) :
    List SdkFloatingIp :=
  fips.map (fun f => if f.floating_ip_address == addr then { f with port_id := newPort } else f)

/-- `_from_sdk_floatingip`: resolves the bound machine through the port; the
source reads `port.device_id` without a `None` check, so a dangling port id
would crash with `AttributeError`. -/
def _from_sdk_floatingip (findPort : String → Option Port) (fip : SdkFloatingIp) :
    Except Failure ExternalIp :=
  match fip.port_id with
  | none => .ok ⟨fip.floating_ip_address, none⟩
  | some pid =>
    match findPort pid with
    | some port => .ok ⟨fip.floating_ip_address, some port.device_id⟩
    | none => .error (.hard "AttributeError")

/-- `attach_external_ip`, after id-or-object normalization: NAT gate, port
lookup on the tenant network, detach of any floating IP currently bound to
the port, lookup of the requested address (against the state AFTER the
detach), then the re-bind.  Returns the result paired with the final
floating-IP table. -/
def attach_external_ip (findPort : String → Option Port) (machine : Machine)
    (tenantNetId : String) (ports : List Port) (ip : String)
    (fips : List SdkFloatingIp) : Except Failure ExternalIp × List SdkFloatingIp :=
  if !machine.nat_allowed then
    (.error (.provider (.invalidOperationError "Machine is not allowed to have an external IP address.")), fips)
  else
    match ports.find? (fun p => p.device_id == machine.id && p.network_id == tenantNetId) with
    | none =>
      (.error (.provider (.improperlyConfiguredError "Machine is not connected to tenancy network.")), fips)
    | some port =>
      let fips1 :=
        match ipsByPort fips port.id with
        | some current => update_ip fips current.floating_ip_address none
        | none => fips
      match ipsByAddress fips1 ip with
      | none =>
        (.error (.provider (.objectNotFoundError ("Could not find external IP \x27" ++ ip ++ "\x27"))), fips1)
      | some fip =>
        let updated : SdkFloatingIp := { fip with port_id := some port.id }
        (_from_sdk_floatingip findPort updated, update_ip fips1 fip.floating_ip_address (some port.id))

/-! ### Quotas -/

/-- `dto.Quota` with its constructor-argument fields in source order. -/
structure Quota where
  resource : String
  units : Option String
  allowed : Int
  used : Int
  deriving DecidableEq, Repr

/-- The absolute compute limits consumed by `quotas()`. -/
structure ComputeLimits where
  total_cores : Int
  total_cores_used : Int
  total_ram : Int
  total_ram_used : Int
  instances : Int
  instances_used : Int
  deriving DecidableEq, Repr

/-- The network quota response: the code consumes only
`network_quotas['quota']['floatingip']`; every other field of the JSON is
carried but never read. -/
structure NetworkQuotaResponse where
  floatingip : Int
  other_fields : List (String × Int)
  deriving DecidableEq, Repr

/-- The absolute volume limits consumed by `quotas()`. -/
structure VolumeLimitsAbsolute where
  maxTotalVolumeGigabytes : Int
  totalGigabytesUsed : Int
  maxTotalVolumes : Int
  totalVolumesUsed : Int
  deriving DecidableEq, Repr

/-- `quotas()`: the six quota entries assembled in source order.  The
`external_ips` usage is `len(list(self.connection.network.ips()))` — the
count of currently allocated floating IPs (`fips`), not any counter of the
network quota response. -/
def quotas (cl : ComputeLimits) (nq : NetworkQuotaResponse)
    (fips : List SdkFloatingIp) (vl : VolumeLimitsAbsolute) : List Quota :=
  [⟨"cpus", none, cl.total_cores, cl.total_cores_used⟩,
   ⟨"ram", some "MB", cl.total_ram, cl.total_ram_used⟩,
   ⟨"machines", none, cl.instances, cl.instances_used⟩,
   ⟨"external_ips", none, nq.floatingip, (fips.length : Int)⟩,
   ⟨"storage", some "GB", vl.maxTotalVolumeGigabytes, vl.totalGigabytesUsed⟩,
   ⟨"volumes", none, vl.maxTotalVolumes, vl.totalVolumesUsed⟩]

end Azimuth

namespace Azimuth

/-- C1: a 409 whose message contains "quota exceeded" (case-insensitively)
translates to `QuotaExceededError`; a 409 without the phrase to
`InvalidOperationError`; a 403 with the phrase to `QuotaExceededError`; a 403
without it to `PermissionDeniedError`.  Stated for both HTTP exception shapes
handled by `convert_sdk_exceptions` (the SDK shape sniffs the message after
resource-name rewriting). -/
theorem error_translation_409_403 (msg details : String) :
    ((containsQuotaExceeded msg = true →
        convert_sdk_exceptions (.keystoneHttpError 409 msg) =
          .quotaExceededError quotaExceededMessage) ∧
     (containsQuotaExceeded msg = false →
        convert_sdk_exceptions (.keystoneHttpError 409 msg) =
          .invalidOperationError msg) ∧
     (containsQuotaExceeded msg = true →
        convert_sdk_exceptions (.keystoneHttpError 403 msg) =
          .quotaExceededError quotaExceededMessage) ∧
     (containsQuotaExceeded msg = false →
        convert_sdk_exceptions (.keystoneHttpError 403 msg) =
          .permissionDeniedError "Permission denied")) ∧
    ((containsQuotaExceeded (_replace_resource_names details) = true →
        convert_sdk_exceptions (.httpException 409 details) =
          .quotaExceededError quotaExceededMessage) ∧
     (containsQuotaExceeded (_replace_resource_names details) = false →
        convert_sdk_exceptions (.httpException 409 details) =
          .invalidOperationError (_replace_resource_names details)) ∧
     (containsQuotaExceeded (_replace_resource_names details) = true →
        convert_sdk_exceptions (.httpException 403 details) =
          .quotaExceededError quotaExceededMessage) ∧
     (containsQuotaExceeded (_replace_resource_names details) = false →
        convert_sdk_exceptions (.httpException 403 details) =
          .permissionDeniedError "Permission denied")) := by
  refine ⟨⟨?_, ?_, ?_, ?_⟩, ?_, ?_, ?_, ?_⟩ <;>
    intro h <;>
    simp [convert_sdk_exceptions, httpStatusDispatch, h]

/-- Witness for C1: concrete evaluations covering a message with the phrase
(in mixed case) and one without it, on both the 409 and 403 paths. -/
theorem error_translation_409_403_witness :
    (convert_sdk_exceptions (.keystoneHttpError 409 "Quota exceeded for cores") =
      .quotaExceededError quotaExceededMessage) ∧
    (convert_sdk_exceptions (.keystoneHttpError 409 "conflict on instance") =
      .invalidOperationError "conflict on instance") ∧
    (convert_sdk_exceptions (.keystoneHttpError 403 "QUOTA EXCEEDED") =
      .quotaExceededError quotaExceededMessage) ∧
    (convert_sdk_exceptions (.keystoneHttpError 403 "forbidden") =
      .permissionDeniedError "Permission denied") := by
  refine ⟨?_, ?_, ?_, ?_⟩
  · exact ((error_translation_409_403 "Quota exceeded for cores" "").1).1 (by decide)
  · exact ((error_translation_409_403 "conflict on instance" "").1).2.1 (by decide)
  · exact ((error_translation_409_403 "QUOTA EXCEEDED" "").1).2.2.1 (by decide)
  · exact ((error_translation_409_403 "forbidden" "").1).2.2.2 (by decide)

/-- C2: when the scoping attempt is rejected with status 401 or 403, the
decorated `scoped_session` call raises `ObjectNotFoundError` (so in
particular never `AuthenticationError` or `PermissionDeniedError`); for any
other status the handler re-raises the exception unchanged, leaving it to the
standard boundary translation every decorated operation gets. -/
theorem scoped_session_auth_remap (username : String) (t : Tenancy)
    (tenancies : List Tenancy) (s : Nat) (d : String) :
    ((s = 401 ∨ s = 403) →
      scoped_session username (.tenancy t) tenancies (.httpExc s d) =
        .error (.provider (.objectNotFoundError ("Could not find tenancy with ID " ++ t.id)))) ∧
    (s ≠ 401 → s ≠ 403 →
      scoped_session_body username (.tenancy t) tenancies (.httpExc s d) =
        .sdkError (.httpException s d) ∧
      scoped_session username (.tenancy t) tenancies (.httpExc s d) =
        .error (.provider (convert_sdk_exceptions (.httpException s d)))) := by
  constructor
  · rintro (rfl | rfl) <;>
      simp [scoped_session, scoped_session_body, scopeAttempt, applyConvert]
  · intro h1 h3
    have hs : (s == 401 || s == 403) = false := by
      simp [h1, h3]
    constructor <;>
      simp [scoped_session, scoped_session_body, scopeAttempt, applyConvert, hs]

/-- Witness for C2: a 403 scoping rejection surfaces `ObjectNotFoundError`,
and a 500 rejection is re-raised unchanged by the handler. -/
theorem scoped_session_auth_remap_witness :
    (scoped_session "alice" (.tenancy ⟨"t1", "proj"⟩) [] (.httpExc 403 "Forbidden") =
      .error (.provider (.objectNotFoundError "Could not find tenancy with ID t1"))) ∧
    (scoped_session_body "alice" (.tenancy ⟨"t1", "proj"⟩) [] (.httpExc 500 "boom") =
      .sdkError (.httpException 500 "boom")) := by
  constructor
  · exact (scoped_session_auth_remap "alice" ⟨"t1", "proj"⟩ [] 403 "Forbidden").1 (Or.inr rfl)
  · exact ((scoped_session_auth_remap "alice" ⟨"t1", "proj"⟩ [] 500 "boom").2
      (by decide) (by decide)).1

/-- C5 counterexample: the claim says a protocol-level "not found" rejection
of the credentials raises `AuthenticationError` and a transport failure
raises `CommunicationError`; on the code a 404 response raises
`CommunicationError` (only 401 becomes `AuthenticationError`) and a
transport failure propagates as the raw, untranslated
`requests.exceptions.ConnectionError` (the `requests.post` call sits before
the `try:` block). -/
theorem authenticate_404_counterexample :
    (authenticate "https://keystone/v3" "alice" (.response 404 []) =
      .error (.provider (.communicationError "Unexpected response from OpenStack"))) ∧
    (authenticate "https://keystone/v3" "alice" (.response 404 []) ≠
      .error (.provider (.authenticationError "Invalid username or password"))) ∧
    (authenticate "https://keystone/v3" "alice" .connectionFailure =
      .error (.hard "requests.exceptions.ConnectionError")) := by
  refine ⟨by simp [authenticate], by simp [authenticate], rfl⟩

/-- C5 amended: a 401 rejection raises `AuthenticationError`; any other error
status (400–599, including 404) raises `CommunicationError`; a success
response missing the `X-Subject-Token` header raises `CommunicationError`;
a transport failure propagates as the raw connection exception; on success
an `UnscopedSession` holding the header token is returned. -/
theorem authenticate_amended (auth_url username : String) (status : Nat)
    (headers : List (String × String)) :
    (status = 401 →
      authenticate auth_url username (.response status headers) =
        .error (.provider (.authenticationError "Invalid username or password"))) ∧
    (400 ≤ status → status < 600 → status ≠ 401 →
      authenticate auth_url username (.response status headers) =
        .error (.provider (.communicationError "Unexpected response from OpenStack"))) ∧
    (¬(400 ≤ status ∧ status < 600) →
      headers.find? (fun h => h.1 == "X-Subject-Token") = none →
      authenticate auth_url username (.response status headers) =
        .error (.provider (.communicationError "Unable to extract token from response"))) ∧
    (∀ hd, ¬(400 ≤ status ∧ status < 600) →
      headers.find? (fun h => h.1 == "X-Subject-Token") = some hd →
      authenticate auth_url username (.response status headers) =
        .ok ⟨auth_url, username, hd.2⟩) ∧
    (authenticate auth_url username .connectionFailure =
      .error (.hard "requests.exceptions.ConnectionError")) := by
  refine ⟨?_, ?_, ?_, ?_, rfl⟩
  · rintro rfl
    simp [authenticate]
  · intro h4 h6 h1
    have : (status == 401) = false := by simp [h1]
    simp [authenticate, h4, h6, this]
  · intro hrange hfind
    simp [authenticate, hrange, hfind]
  · intro hd hrange hfind
    simp [authenticate, hrange, hfind]

/-- Witness for C5's amended theorem: concrete evaluations of the 401 path
and of the success path with a token header. -/
theorem authenticate_amended_witness :
    (authenticate "https://keystone/v3" "alice" (.response 401 []) =
      .error (.provider (.authenticationError "Invalid username or password"))) ∧
    (authenticate "https://keystone/v3" "alice"
        (.response 201 [("X-Subject-Token", "tok123")]) =
      .ok ⟨"https://keystone/v3", "alice", "tok123"⟩) := by
  constructor
  · exact (authenticate_amended "https://keystone/v3" "alice" 401 []).1 rfl
  · exact (authenticate_amended "https://keystone/v3" "alice" 201
      [("X-Subject-Token", "tok123")]).2.2.2.1 ("X-Subject-Token", "tok123")
      (by decide) (by decide)

/-- C3: the NAT-allowed flag of a constructed machine is resolved in order:
instance metadata if present, else the source image's flag, else `true` when
the image lookup fails with `ObjectNotFoundError`. -/
theorem nat_allowed_resolution (findImage : String → Except ProviderError Image)
    (net : String) (srv : SdkServer) (m : Machine)
    (hm : fromSdkServer findImage net srv = .ok m) :
    (∀ v n, mdGet srv.metadata "jasmin_nat_allowed" = some v →
      parsePythonInt v = some n → m.nat_allowed = (n != 0)) ∧
    (mdGet srv.metadata "jasmin_nat_allowed" = none →
      (∀ img, findImage srv.image_id = .ok img → m.nat_allowed = img.nat_allowed) ∧
      (∀ msg, findImage srv.image_id = .error (.objectNotFoundError msg) →
        m.nat_allowed = true)) := by
  have key : resolveNatAllowed srv.metadata findImage srv.image_id = .ok m.nat_allowed := by
    unfold fromSdkServer at hm
    split at hm
    · simp at hm
    next b hb =>
      split at hm
      · simp at hm
      next p hp =>
        simp only [Except.ok.injEq] at hm
        subst hm
        exact hb
  refine ⟨?_, ?_⟩
  · intro v n hv hn
    simp only [resolveNatAllowed, hv, hn, Except.ok.injEq] at key
    exact key.symm
  · intro hmd
    constructor
    · intro img himg
      simp only [resolveNatAllowed, hmd, himg, Except.ok.injEq] at key
      exact key.symm
    · intro msg himg
      simp only [resolveNatAllowed, hmd, himg, Except.ok.injEq] at key
      exact key.symm

/-- Witness for C3: the three branches on concrete servers — metadata `"0"`
gives `false`; no metadata and a resolvable image gives the image's flag;
no metadata and a vanished image gives `true`. -/
theorem nat_allowed_resolution_witness :
    ((⟨"s1", "vm", "img1", "f1", ⟨"ACTIVE", none⟩, "Running", none, none, none,
        false, [], "u", "2020"⟩ : Machine).nat_allowed = ((0 : Int) != 0)) ∧
    ((⟨"s1", "vm", "img1", "f1", ⟨"ACTIVE", none⟩, "Running", none, none, none,
        false, [], "u", "2020"⟩ : Machine).nat_allowed =
      (⟨"img1", "LINUX", "centos", true, false, 0⟩ : Image).nat_allowed) ∧
    ((⟨"s1", "vm", "img1", "f1", ⟨"ACTIVE", none⟩, "Running", none, none, none,
        true, [], "u", "2020"⟩ : Machine).nat_allowed = true) := by
  refine ⟨?_, ?_, ?_⟩
  · exact (nat_allowed_resolution (fun _ => .error (.objectNotFoundError "gone")) "net"
      { id := "s1", name := "vm", metadata := some [("jasmin_nat_allowed", "0")],
        image_id := "img1", flavor_id := "f1", status := "ACTIVE", fault_message := none,
        task_state := none, power_state := 1, addresses := [], attached_volumes := [],
        user_id := "u", created_at := "2020" }
      ⟨"s1", "vm", "img1", "f1", ⟨"ACTIVE", none⟩, "Running", none, none, none,
        false, [], "u", "2020"⟩ rfl).1 "0" 0 rfl rfl
  · exact ((nat_allowed_resolution (fun _ => .ok ⟨"img1", "LINUX", "centos", true, false, 0⟩)
      "net"
      { id := "s1", name := "vm", metadata := none,
        image_id := "img1", flavor_id := "f1", status := "ACTIVE", fault_message := none,
        task_state := none, power_state := 1, addresses := [], attached_volumes := [],
        user_id := "u", created_at := "2020" }
      ⟨"s1", "vm", "img1", "f1", ⟨"ACTIVE", none⟩, "Running", none, none, none,
        false, [], "u", "2020"⟩ rfl).2 rfl).1 ⟨"img1", "LINUX", "centos", true, false, 0⟩ rfl
  · exact ((nat_allowed_resolution (fun _ => .error (.objectNotFoundError "gone")) "net"
      { id := "s1", name := "vm", metadata := none,
        image_id := "img1", flavor_id := "f1", status := "ACTIVE", fault_message := none,
        task_state := none, power_state := 1, addresses := [], attached_volumes := [],
        user_id := "u", created_at := "2020" }
      ⟨"s1", "vm", "img1", "f1", ⟨"ACTIVE", none⟩, "Running", none, none, none,
        true, [], "u", "2020"⟩ rfl).2 rfl).2 "gone" rfl

/-- Any hit in the power-state table carries one of the six vocabulary
entries. -/
theorem powerStateLookup_mem (code : Nat) (p : String)
    (h : powerStateLookup code = some p) :
    p ∈ ["Unknown", "Running", "Paused", "Shut down", "Crashed", "Suspended"] := by
  have hvals : ∀ q ∈ _POWER_STATES,
      q.2 ∈ ["Unknown", "Running", "Paused", "Shut down", "Crashed", "Suspended"] := by
    decide
  unfold powerStateLookup at h
  cases hfind : _POWER_STATES.find? (fun q => q.1 == code) with
  | none => rw [hfind] at h; simp at h
  | some q =>
    rw [hfind] at h
    simp only [Option.map_some'] at h
    injection h with h2
    exact h2 ▸ hvals q (List.mem_of_find?_eq_some hfind)

/-- C7: every constructed machine carries a power state drawn from the
table's fixed vocabulary, and a code outside the table makes construction
fail with the untranslated `KeyError` (given that the NAT resolution step
before it succeeded). -/
theorem power_state_mapping (findImage : String → Except ProviderError Image)
    (net : String) (srv : SdkServer) :
    (∀ m, fromSdkServer findImage net srv = .ok m →
      powerStateLookup srv.power_state = some m.power_state ∧
      m.power_state ∈ ["Unknown", "Running", "Paused", "Shut down", "Crashed", "Suspended"]) ∧
    (powerStateLookup srv.power_state = none →
      ∀ b, resolveNatAllowed srv.metadata findImage srv.image_id = .ok b →
        fromSdkServer findImage net srv = .error (.hard "KeyError")) := by
  constructor
  · intro m hm
    unfold fromSdkServer at hm
    split at hm
    · simp at hm
    next b hb =>
      split at hm
      · simp at hm
      next p hp =>
        simp only [Except.ok.injEq] at hm
        subst hm
        exact ⟨hp, powerStateLookup_mem _ _ hp⟩
  · intro hnone b hb
    simp [fromSdkServer, hb, hnone]

/-- Witness for C7: power code 1 yields `Running` on a concrete server, and
the out-of-table code 2 yields the hard `KeyError`. -/
theorem power_state_mapping_witness :
    (powerStateLookup 1 = some "Running" ∧
      "Running" ∈ ["Unknown", "Running", "Paused", "Shut down", "Crashed", "Suspended"]) ∧
    fromSdkServer (fun _ => .error (.objectNotFoundError "gone")) "net"
      { id := "s1", name := "vm", metadata := none,
        image_id := "img1", flavor_id := "f1", status := "ACTIVE", fault_message := none,
        task_state := none, power_state := 2, addresses := [], attached_volumes := [],
        user_id := "u", created_at := "2020" } = .error (.hard "KeyError") := by
  constructor
  · exact (power_state_mapping (fun _ => .error (.objectNotFoundError "gone")) "net"
      { id := "s1", name := "vm", metadata := none,
        image_id := "img1", flavor_id := "f1", status := "ACTIVE", fault_message := none,
        task_state := none, power_state := 1, addresses := [], attached_volumes := [],
        user_id := "u", created_at := "2020" }).1
      ⟨"s1", "vm", "img1", "f1", ⟨"ACTIVE", none⟩, "Running", none, none, none,
        true, [], "u", "2020"⟩ rfl
  · exact (power_state_mapping (fun _ => .error (.objectNotFoundError "gone")) "net"
      { id := "s1", name := "vm", metadata := none,
        image_id := "img1", flavor_id := "f1", status := "ACTIVE", fault_message := none,
        task_state := none, power_state := 2, addresses := [], attached_volumes := [],
        user_id := "u", created_at := "2020" }).2 rfl true rfl

/-- C10: a present but non-integer `jasmin_nat_allowed` metadata value makes
machine construction fail with the untranslated `ValueError` — the image
fallback is never consulted for a malformed value. -/
theorem malformed_nat_metadata_hard_error
    (findImage : String → Except ProviderError Image) (net : String)
    (srv : SdkServer) (v : String)
    (hv : mdGet srv.metadata "jasmin_nat_allowed" = some v)
    (hbad : parsePythonInt v = none) :
    fromSdkServer findImage net srv = .error (.hard "ValueError") := by
  have hres : resolveNatAllowed srv.metadata findImage srv.image_id =
      .error (.hard "ValueError") := by
    simp only [resolveNatAllowed, hv, hbad]
  simp [fromSdkServer, hres]

/-- Witness for C10: metadata value `"true"` (not an integer) on a server
whose image would have been resolvable — construction still dies with the
`ValueError`. -/
theorem malformed_nat_metadata_hard_error_witness :
    fromSdkServer (fun _ => .ok ⟨"img1", "LINUX", "centos", true, true, 0⟩) "net"
      { id := "s1", name := "vm", metadata := some [("jasmin_nat_allowed", "true")],
        image_id := "img1", flavor_id := "f1", status := "ACTIVE", fault_message := none,
        task_state := none, power_state := 1, addresses := [], attached_volumes := [],
        user_id := "u", created_at := "2020" } = .error (.hard "ValueError") :=
  malformed_nat_metadata_hard_error _ _ _ "true" rfl (by decide)

/-- C4 counterexample: `"error_attaching"` begins with `"error_"` but is not
in the status table, so it maps to `OTHER`, not to the `ERROR` phase. -/
theorem volume_error_status_counterexample :
    charsStartWith "error_attaching".data "error_".data = true ∧
    volumePhaseOf "error_attaching" = VolumeStatus.OTHER ∧
    VolumeStatus.OTHER ≠ VolumeStatus.ERROR := by
  refine ⟨by decide, by decide, by decide⟩

/-- C4 amended: the status (lower-cased) is looked up in the closed table —
the four `error_*` variants listed there (`error_deleting`,
`error_backing-up`, `error_restoring`, `error_extending`) fold into the
single `ERROR` phase — and every status outside the table maps to `OTHER`
(the mapping is a total function, so construction never fails on it); the
phase of every constructed volume is exactly this mapping of its backend
status string. -/
theorem volume_status_mapping_amended (s : String) (sv : SdkVolume) :
    (volumePhaseOf "creating" = .CREATING ∧
     volumePhaseOf "available" = .AVAILABLE ∧
     volumePhaseOf "attaching" = .ATTACHING ∧
     volumePhaseOf "detaching" = .DETACHING ∧
     volumePhaseOf "in-use" = .IN_USE ∧
     volumePhaseOf "deleting" = .DELETING ∧
     volumePhaseOf "error" = .ERROR ∧
     volumePhaseOf "error_deleting" = .ERROR ∧
     volumePhaseOf "error_backing-up" = .ERROR ∧
     volumePhaseOf "error_restoring" = .ERROR ∧
     volumePhaseOf "error_extending" = .ERROR) ∧
    (_VOLUME_STATUSES.find? (fun p => p.1 == pyLower s) = none →
      volumePhaseOf s = .OTHER) ∧
    (_from_sdk_volume sv).status = volumePhaseOf sv.status := by
  refine ⟨by decide, ?_, rfl⟩
  intro h
  simp [volumePhaseOf, h]

/-- Witness for C4's amended theorem: the unknown status `"backing-up"`
(without the `error_` stem) lands in `OTHER` on a concrete volume. -/
theorem volume_status_mapping_amended_witness :
    volumePhaseOf "backing-up" = VolumeStatus.OTHER :=
  (volume_status_mapping_amended "backing-up"
    ⟨"v1", none, "backing-up", 10, []⟩).2.1 (by decide)

/-- C6: `attach_volume` is idempotent — a volume already attached to the
requested machine is returned unchanged with no backend write, whatever its
status; a volume attached elsewhere (or detached) that is not `AVAILABLE`
raises `InvalidOperationError` with no backend write. -/
theorem attach_volume_idempotent (v : Volume) (machineId : String) (refetched : Volume) :
    (v.machine_id = some machineId →
      attach_volume v machineId refetched = (.ok v, [])) ∧
    (v.machine_id ≠ some machineId → v.status ≠ .AVAILABLE →
      attach_volume v machineId refetched =
        (.error (.invalidOperationError "Volume must be AVAILABLE before attaching."), [])) := by
  constructor
  · intro h
    simp [attach_volume, h]
  · intro h1 h2
    simp [attach_volume, h1, h2]

/-- Witness for C6: a volume in the `IN_USE` status already attached to
machine `m1` is returned as-is; the same volume requested for machine `m2`
is rejected. -/
theorem attach_volume_idempotent_witness :
    (attach_volume ⟨"v1", "data", .IN_USE, 10, some "m1", some "/dev/vdb"⟩ "m1"
        ⟨"v1", "data", .IN_USE, 10, some "m1", some "/dev/vdb"⟩ =
      (.ok ⟨"v1", "data", .IN_USE, 10, some "m1", some "/dev/vdb"⟩, [])) ∧
    (attach_volume ⟨"v1", "data", .IN_USE, 10, some "m1", some "/dev/vdb"⟩ "m2"
        ⟨"v1", "data", .IN_USE, 10, some "m1", some "/dev/vdb"⟩ =
      (.error (.invalidOperationError "Volume must be AVAILABLE before attaching."), [])) := by
  constructor
  · exact (attach_volume_idempotent ⟨"v1", "data", .IN_USE, 10, some "m1", some "/dev/vdb"⟩
      "m1" ⟨"v1", "data", .IN_USE, 10, some "m1", some "/dev/vdb"⟩).1 rfl
  · exact (attach_volume_idempotent ⟨"v1", "data", .IN_USE, 10, some "m1", some "/dev/vdb"⟩
      "m2" ⟨"v1", "data", .IN_USE, 10, some "m1", some "/dev/vdb"⟩).2 (by decide) (by decide)

/-- C8: `quotas()` yields exactly six entries, in the order cpus, ram (MB),
machines, external_ips, storage (GB), volumes; the `external_ips` usage is
the count of allocated floating IPs, and the result is independent of every
network-quota response field other than the `floatingip` limit. -/
theorem quotas_shape (cl : ComputeLimits) (nq : NetworkQuotaResponse)
    (fips : List SdkFloatingIp) (vl : VolumeLimitsAbsolute) :
    (quotas cl nq fips vl).length = 6 ∧
    (quotas cl nq fips vl).map Quota.resource =
      ["cpus", "ram", "machines", "external_ips", "storage", "volumes"] ∧
    (quotas cl nq fips vl).map Quota.units =
      [none, some "MB", none, none, some "GB", none] ∧
    (quotas cl nq fips vl)[3]? =
      some ⟨"external_ips", none, nq.floatingip, (fips.length : Int)⟩ ∧
    (∀ other, quotas cl ⟨nq.floatingip, other⟩ fips vl = quotas cl nq fips vl) := by
  exact ⟨rfl, rfl, rfl, rfl, fun _ => rfl⟩

/-- Updating a floating IP's port binding never changes its address. -/
theorem update_preserves_addr (f : SdkFloatingIp) (a : String) (p : Option String) :
    (if f.floating_ip_address == a then { f with port_id := p } else f).floating_ip_address
      = f.floating_ip_address := by
  split <;> rfl

/-- An address absent from the floating-IP table stays absent after a port
re-binding (which only touches `port_id`). -/
theorem ipsByAddress_update_none (fips : List SdkFloatingIp) (a : String)
    (p : Option String) (ip : String) (h : ipsByAddress fips ip = none) :
    ipsByAddress (update_ip fips a p) ip = none := by
  unfold ipsByAddress at h ⊢
  rw [List.find?_eq_none] at h ⊢
  intro y hy
  simp only [update_ip, List.mem_map] at hy
  obtain ⟨x, hx, rfl⟩ := hy
  rw [update_preserves_addr]
  simpa using h x hx

/-- After `update_ip fips a none`, every floating IP with address `a` is
unbound. -/
theorem update_ip_detaches (fips : List SdkFloatingIp) (a : String) :
    ∀ f ∈ update_ip fips a none, f.floating_ip_address = a → f.port_id = none := by
  intro f hf ha
  simp only [update_ip, List.mem_map] at hf
  obtain ⟨x, hx, rfl⟩ := hf
  by_cases h : x.floating_ip_address = a
  · simp [h]
  · have hb : (x.floating_ip_address == a) = false := by simp [h]
    rw [hb] at ha
    simp only [if_neg (by simp [h] : ¬(x.floating_ip_address == a) = true)] at ha ⊢
    exact absurd ha h

/-- C9: with a NAT-allowed machine connected to the tenant network that
already holds a floating IP, requesting an address that matches no floating
IP raises `ObjectNotFoundError` — but only after the previously bound
floating IP has been detached: the final state is the detached table, in
which every floating IP at the old address is unbound. -/
theorem attach_external_ip_detach_before_notfound
    (findPort : String → Option Port) (machine : Machine) (tenantNetId : String)
    (ports : List Port) (ip : String) (fips : List SdkFloatingIp)
    (port : Port) (current : SdkFloatingIp)
    (hnat : machine.nat_allowed = true)
    (hport : ports.find? (fun p => p.device_id == machine.id && p.network_id == tenantNetId)
      = some port)
    (hcur : ipsByPort fips port.id = some current)
    (hip : ipsByAddress fips ip = none) :
    attach_external_ip findPort machine tenantNetId ports ip fips =
      (.error (.provider (.objectNotFoundError ("Could not find external IP \x27" ++ ip ++ "\x27"))),
        update_ip fips current.floating_ip_address none) ∧
    ∀ f ∈ (attach_external_ip findPort machine tenantNetId ports ip fips).2,
      f.floating_ip_address = current.floating_ip_address → f.port_id = none := by
  have hip1 : ipsByAddress (update_ip fips current.floating_ip_address none) ip = none :=
    ipsByAddress_update_none fips current.floating_ip_address none ip hip
  have heq : attach_external_ip findPort machine tenantNetId ports ip fips =
      (.error (.provider (.objectNotFoundError ("Could not find external IP \x27" ++ ip ++ "\x27"))),
        update_ip fips current.floating_ip_address none) := by
    simp only [attach_external_ip, hnat, Bool.not_true, Bool.false_eq_true, if_false,
      hport, hcur, hip1]
  refine ⟨heq, ?_⟩
  rw [heq]
  exact update_ip_detaches fips current.floating_ip_address

/-- Witness for C9: machine `m1` holds floating IP `1.2.3.4` on its port;
asking to attach the non-existent `5.6.7.8` errors, and the final state has
`1.2.3.4` detached. -/
theorem attach_external_ip_detach_before_notfound_witness :
    attach_external_ip (fun _ => none)
        ⟨"m1", "vm", "img", "f", ⟨"ACTIVE", none⟩, "Running", none, none, none,
          true, [], "u", "2020"⟩
        "net1" [⟨"port1", "m1", "net1"⟩] "5.6.7.8" [⟨"1.2.3.4", some "port1"⟩] =
      (.error (.provider (.objectNotFoundError "Could not find external IP \x275.6.7.8\x27")),
        [⟨"1.2.3.4", none⟩]) :=
  (attach_external_ip_detach_before_notfound (fun _ => none)
    ⟨"m1", "vm", "img", "f", ⟨"ACTIVE", none⟩, "Running", none, none, none,
      true, [], "u", "2020"⟩
    "net1" [⟨"port1", "m1", "net1"⟩] "5.6.7.8" [⟨"1.2.3.4", some "port1"⟩]
    ⟨"port1", "m1", "net1"⟩ ⟨"1.2.3.4", some "port1"⟩ rfl rfl rfl rfl).1

end Azimuth
